import Mathlib

/-!
Shallow embedding of the analysis-ingestion and user-statistics core of the
`muqeetqazi/backend` repository (Django / DRF).

Embedded source files:
- `src/detection/serializers.py` — `AnalyzeDocumentSerializer`,
  `SensitiveItemSerializer`, `DetectionResultSerializer`,
  `MLAnalysisPayloadSerializer`;
- `src/detection/views.py` — `AnalysisViewSet.create`,
  `_handle_ml_payload`, `_handle_backend_analysis`;
- `src/documents/views.py` — `DocumentViewSet.perform_update`;
- `src/users/services/stats.py` — `UserStatsService`.

Conventions: JSON presence/absence of a field is `Option`; Django rows
live in lists inside an explicit `SysState`; float-valued fields
(`confidence`, `processing_time`) carry `Rat` values — the embedded code
paths only pass them through, never compute with them; integer fields are
`Int` (Django `IntegerField` is unbounded in validation).
-/

namespace Backend

/-- Modelled from the spec (the Django model module `documents/models.py` is
not under `src/`; §3 of the spec lists the attributes): a `Document` belongs
to exactly one user and carries a `processed` flag. -/
structure Document where
  id : Int
  userId : Nat
  title : String
  file_type : String
  processed : Bool
deriving Repr, DecidableEq

/-- Modelled from the spec (`documents/models.py` is not under `src/`):
a `DocumentScan` row — child of one document, with risk level,
processing time and a scan timestamp. -/
structure Scan where
  id : Nat
  documentId : Int
  risk_level : String
  processing_time : Rat
  scan_date : Nat
deriving Repr, DecidableEq

/-- Modelled from the spec (`documents/models.py` is not under `src/`):
a `SensitiveInformation` row — child of one scan. -/
structure SensitiveInformation where
  scanId : Nat
  type : String
  confidence : Rat
  location : Option String
  count : Int
  redacted : Bool
deriving Repr, DecidableEq

/-- Modelled from the spec (the user model is not under `src/`; §3: "five
non-negative integer counters on the user record"). These are the fields
`stats.py` and the views mutate. -/
structure UserStats where
  total_documents_saved : Int
  total_documents_processed : Int
  total_documents_shared : Int
  total_sensitive_items_detected : Int
  total_non_detected_items : Int
deriving Repr, DecidableEq

/-- The whole persistent state touched by the embedded code: document,
scan and sensitive-item rows, plus each user's counters (`stats u` are the
counters of user `u`). `nextScanId` models the database's fresh primary
key for scans; `now` models the database clock stamped into `scan_date`. -/
structure SysState where
  documents : List Document
  scans : List Scan
  items : List SensitiveInformation
  stats : Nat → UserStats
  nextScanId : Nat
  now : Nat

/-! ### Raw (pre-validation) request payloads -/

/-- One element of a `sensitive_items` JSON array, before validation
(`SensitiveItemSerializer` input). `none` = key absent. -/
structure RawItem where
  type : Option String
  confidence : Option Rat
  location : Option String
  count : Option Int
deriving Repr, DecidableEq

/-- The JSON body of a `POST /analyze` request. Both serializers read from
this one dict; fields irrelevant to a given serializer are ignored by it. -/
structure RawRequest where
  document_id : Option Int
  detection_types : Option (List String)
  sensitive_items_count : Option Int
  processing_time : Option Rat
  source : Option String
  sensitive_items : Option (List RawItem)
deriving Repr, DecidableEq

/-- The dict the modelled detection service hands back and that
`DetectionResultSerializer` validates (`data=results` in
`_handle_backend_analysis`). -/
structure RawDetectionResult where
  document_id : Option Int
  risk_level : Option String
  processing_time : Option Rat
  sensitive_items : Option (List RawItem)
deriving Repr, DecidableEq

/-- Modelled from the spec: `DetectionService.analyze_document`
(`src/detection/detection_service.py` is not under `src/`). Per §6 the
detection engine is an opaque collaborator that returns
`{risk_level, processing_time, sensitive_items[]}` or an error indicator;
the view only checks `'error' in results`. The outcome is therefore a
parameter of the backend-analysis pipeline. -/
inductive DetectionOutcome where
  | err : DetectionOutcome
  | ok : RawDetectionResult → DetectionOutcome
deriving Repr, DecidableEq

/-! ### Validation (`serializers.py`) -/

/-- A sensitive item after `SensitiveItemSerializer` validation:
`type` and `confidence` are declared required (`CharField()`,
`FloatField()`), `location` is `required=False`, `count` has `default=1`. -/
structure ValidItem where
  type : String
  confidence : Rat
  location : Option String
  count : Int
deriving Repr, DecidableEq

/-- `SensitiveItemSerializer` validation of one raw item: rejects a missing
`type` or `confidence`; applies the declared `default=1` to `count`;
passes `location` through (absent stays absent). -/
def validateItem (r : RawItem) : Option ValidItem :=
  match r.type, r.confidence with
  | some t, some c => some ⟨t, c, r.location, r.count.getD 1⟩
  | _, _ => none

/-- `SensitiveItemSerializer(many=True)` validation of a whole
`sensitive_items` array: every element must validate. -/
def validateItems : List RawItem → Option (List ValidItem)
  | [] => some []
  | r :: rs =>
    match validateItem r, validateItems rs with
    | some v, some vs => some (v :: vs)
    | _, _ => none

/-- `AnalyzeDocumentSerializer.validate_document_id`: the document must
exist and belong to the requesting user. -/
def validate_document_id (docs : List Document) (uid : Nat) (v : Int) : Bool :=
  match docs.find? (fun d => d.id = v) with
  | some d => d.userId = uid
  | none => false

/-- `MLAnalysisPayloadSerializer` output (`validated_data`), with
`validated_data.get('sensitive_items', [])` already folded in:
an absent `sensitive_items` key becomes the empty list. -/
structure ValidML where
  document_id : Int
  detection_types : List String
  sensitive_items_count : Int
  processing_time : Rat
  source : String
  sensitive_items : List ValidItem
deriving Repr, DecidableEq

/-- `MLAnalysisPayloadSerializer.is_valid`: `document_id`,
`detection_types`, `sensitive_items_count`, `processing_time` and `source`
are required; `validate_source` insists on the literal `"ml_model"`;
`sensitive_items` is optional but each supplied element must pass
`SensitiveItemSerializer`. Note there is no `validate_document_id` here:
ownership and existence of the document are not checked by this
serializer. -/
def validateML (raw : RawRequest) : Option ValidML :=
  match raw.document_id, raw.detection_types, raw.sensitive_items_count,
        raw.processing_time, raw.source with
  | some did, some dts, some c, some pt, some src =>
    if src = "ml_model" then
      match raw.sensitive_items with
      | none => some ⟨did, dts, c, pt, src, []⟩
      | some ris =>
        (validateItems ris).map (fun vis => ⟨did, dts, c, pt, src, vis⟩)
    else none
  | _, _, _, _, _ => none

/-- `DetectionResultSerializer` output. -/
structure ValidDetectionResult where
  document_id : Int
  risk_level : String
  processing_time : Rat
  sensitive_items : List ValidItem
deriving Repr, DecidableEq

/-- `DetectionResultSerializer.is_valid`: all four fields required,
`risk_level` a `ChoiceField` over `low | medium | high`, every item must
pass `SensitiveItemSerializer`. -/
def validateDetectionResult (r : RawDetectionResult) :
    Option ValidDetectionResult :=
  match r.document_id, r.risk_level, r.processing_time, r.sensitive_items with
  | some did, some rl, some pt, some its =>
    if rl = "low" ∨ rl = "medium" ∨ rl = "high" then
      (validateItems its).map (fun vis => ⟨did, rl, pt, vis⟩)
    else none
  | _, _, _, _ => none

/-! ### Persistence (`serializers.py` create methods) -/

/-- `document.processed = True; document.save()` on the row with the given
id. -/
def markProcessed (docs : List Document) (did : Int) : List Document :=
  docs.map (fun d => if d.id = did then { d with processed := true } else d)

/-- `MLAnalysisPayloadSerializer.create_ml_analysis_result`: looks the
document up (`Document.objects.get`, `none` = `DoesNotExist` raised),
derives the risk level from `sensitive_items_count`
(`0 → low`, `≤ 2 → medium`, else `high` — the second branch also catches
negative counts), creates the scan row, one `SensitiveInformation` row per
validated item with `redacted=False` forced, and marks the document
processed. The source's `item.get('type', 'other')`,
`item.get('confidence', 0.0)` and `item.get('count', 1)` read
already-validated items, whose `type` and `confidence` are always present
and whose `count` was defaulted by validation, so they reduce to the
validated fields. -/
def create_ml_analysis_result (v : ValidML) (st : SysState) :
    Option (Scan × SysState) :=
  match st.documents.find? (fun d => d.id = v.document_id) with
  | none => none
  | some doc =>
    let risk_level : String :=
      if v.sensitive_items_count = 0 then "low"
      else if v.sensitive_items_count ≤ 2 then "medium"
      else "high"
    let scan : Scan :=
      ⟨st.nextScanId, doc.id, risk_level, v.processing_time, st.now⟩
    let newItems : List SensitiveInformation :=
      v.sensitive_items.map (fun it =>
        ⟨scan.id, it.type, it.confidence, it.location, it.count, false⟩)
    some (scan,
      { st with
        scans := st.scans ++ [scan]
        items := st.items ++ newItems
        documents := markProcessed st.documents doc.id
        nextScanId := st.nextScanId + 1 })

/-- `DetectionResultSerializer.create`: looks the result's document up
(`none` = `DoesNotExist` raised, uncaught in this path), creates the scan
with the supplied risk level and processing time, one
`SensitiveInformation` row per item (`redacted` takes the model default,
false), and marks the document processed. -/
def detection_result_create (v : ValidDetectionResult) (st : SysState) :
    Option (Scan × SysState) :=
  match st.documents.find? (fun d => d.id = v.document_id) with
  | none => none
  | some doc =>
    let scan : Scan :=
      ⟨st.nextScanId, doc.id, v.risk_level, v.processing_time, st.now⟩
    let newItems : List SensitiveInformation :=
      v.sensitive_items.map (fun it =>
        ⟨scan.id, it.type, it.confidence, it.location, it.count, false⟩)
    some (scan,
      { st with
        scans := st.scans ++ [scan]
        items := st.items ++ newItems
        documents := markProcessed st.documents doc.id
        nextScanId := st.nextScanId + 1 })

/-! ### User statistics (`users/services/stats.py` and the F-expression
updates in `detection/views.py`) -/

/-- Update one user's counters in the state, leaving every other user's
row untouched. -/
def setStats (st : SysState) (uid : Nat) (f : UserStats → UserStats) :
    SysState :=
  { st with stats := fun u => if u = uid then f (st.stats u) else st.stats u }

/-- `user.total_sensitive_items_detected = F(...) + n; user.save(...)` —
the atomic add used by both ingestion branches. -/
def addSensitiveDetected (s : UserStats) (n : Int) : UserStats :=
  { s with total_sensitive_items_detected :=
      s.total_sensitive_items_detected + n }

/-- `user.total_non_detected_items = F(...) + n; user.save(...)`. -/
def addNonDetected (s : UserStats) (n : Int) : UserStats :=
  { s with total_non_detected_items := s.total_non_detected_items + n }

/-! ### HTTP layer (`detection/views.py`, `AnalysisViewSet`) -/

/-- The response body of a successful `POST /analyze`; `none` = the key is
absent from the returned dict. -/
structure AnalyzeResponse where
  document_id : Option Int
  scan_id : Option Nat
  scan_date : Option Nat
  risk_level : Option String
  processing_time : Option Rat
  sensitive_items_count : Option Int
  sensitive_items : Option (List SensitiveInformation)
  source : Option String
  status : Option String
deriving Repr, DecidableEq

/-- Outcome of one request: `created` is HTTP 201 with a body,
`badRequest` is HTTP 400, `serverError` an uncaught exception
(the `DoesNotExist` raised inside `DetectionResultSerializer.create` has
no handler in `_handle_backend_analysis`). -/
inductive HttpResult where
  | created : AnalyzeResponse → HttpResult
  | badRequest : HttpResult
  | serverError : HttpResult
deriving Repr, DecidableEq

/-- `AnalysisViewSet._handle_ml_payload`: validate; on failure 400 with no
writes. On success run `create_ml_analysis_result`, then update the
requesting user's counters from the *supplied* `sensitive_items_count`:
positive → add it to `total_sensitive_items_detected`, otherwise add 1 to
`total_non_detected_items`. The 201 body carries `document_id`, `scan_id`,
`scan_date`, `sensitive_items_count`, `source`, `status` and nothing
else. The view wraps this work in a catch-all `except Exception` that
reports 400; the embedding does not model storage failures, so the only
exception represented inside the `try` is the document lookup's
`DoesNotExist`, which in the program is raised before any write. A
storage failure after a write (scan/item creation mid-batch, or the stats
`user.save()`) would in the program also surface as a 400 but with the
scan already persisted; no theorem below about a 400 outcome covers that
path. -/
def handle_ml_payload (uid : Nat) (raw : RawRequest) (st : SysState) :
    HttpResult × SysState :=
  match validateML raw with
  | none => (.badRequest, st)
  | some v =>
    match create_ml_analysis_result v st with
    | none => (.badRequest, st)
    | some (scan, st1) =>
      let c := v.sensitive_items_count
      let st2 :=
        if c > 0 then setStats st1 uid (fun s => addSensitiveDetected s c)
        else setStats st1 uid (fun s => addNonDetected s 1)
      (.created
        { document_id := some scan.documentId
          scan_id := some scan.id
          scan_date := some scan.scan_date
          risk_level := none
          processing_time := none
          sensitive_items_count := some c
          sensitive_items := none
          source := some "ml_model"
          status := some "recorded" }, st2)

/-- `AnalysisViewSet._handle_backend_analysis`: validate the request with
`AnalyzeDocumentSerializer` (400 on failure), call the detection service,
report its error indicator as 400, validate the results with
`DetectionResultSerializer` (400 on failure), persist via its `create`,
then count the rows persisted for the new scan
(`scan.sensitive_information.count()`) and update the requesting user's
counters from that count: positive → add it to
`total_sensitive_items_detected`, otherwise add 1 to
`total_non_detected_items`. The 201 body carries `document_id`, `scan_id`,
`scan_date`, `risk_level`, `processing_time`, `sensitive_items_count`,
`sensitive_items` and nothing else. -/
def handle_backend_analysis (uid : Nat) (raw : RawRequest)
    (outcome : DetectionOutcome) (st : SysState) : HttpResult × SysState :=
  match raw.document_id with
  | none => (.badRequest, st)
  | some did =>
    if validate_document_id st.documents uid did then
      match outcome with
      | .err => (.badRequest, st)
      | .ok results =>
        match validateDetectionResult results with
        | none => (.badRequest, st)
        | some v =>
          match detection_result_create v st with
          | none => (.serverError, st)
          | some (scan, st1) =>
            let k : Int :=
              ((st1.items.filter (fun i => i.scanId = scan.id)).length : Int)
            let st2 :=
              if k > 0 then
                setStats st1 uid (fun s => addSensitiveDetected s k)
              else setStats st1 uid (fun s => addNonDetected s 1)
            (.created
              { document_id := some scan.documentId
                scan_id := some scan.id
                scan_date := some scan.scan_date
                risk_level := some scan.risk_level
                processing_time := some scan.processing_time
                sensitive_items_count := some k
                sensitive_items :=
                  some (st1.items.filter (fun i => i.scanId = scan.id))
                source := none
                status := none }, st2)
    else (.badRequest, st)

/-- `AnalysisViewSet.create`: the dispatch on
`'source' in request.data and request.data['source'] == 'ml_model'`.
Any other `source` value — including a wrong marker — falls through to the
backend-analysis branch. -/
def analyze_create (uid : Nat) (raw : RawRequest)
    (outcome : DetectionOutcome) (st : SysState) : HttpResult × SysState :=
  if raw.source = some "ml_model" then handle_ml_payload uid raw st
  else handle_backend_analysis uid raw outcome st

/-! ### `UserStatsService` (`users/services/stats.py`). The mutating
operations run inside `transaction.atomic` and re-raise after logging;
raising is modelled as `Except.error` (carrying the message), so an error
outcome produces no successor state. -/

namespace UserStatsService

/-- `increment_documents_saved`: unconditionally adds 1 to
`total_documents_saved`. -/
def increment_documents_saved (s : UserStats) : UserStats :=
  { s with total_documents_saved := s.total_documents_saved + 1 }

/-- `increment_documents_processed`: unconditionally adds 1 to
`total_documents_processed`. -/
def increment_documents_processed (s : UserStats) : UserStats :=
  { s with total_documents_processed := s.total_documents_processed + 1 }

/-- `increment_documents_shared`: unconditionally adds 1 to
`total_documents_shared`. -/
def increment_documents_shared (s : UserStats) : UserStats :=
  { s with total_documents_shared := s.total_documents_shared + 1 }

/-- `increment_sensitive_items_detected(user, count)`: raises
`ValueError("Count must be positive")` when `count < 0` (before any
mutation), else adds `count` to `total_sensitive_items_detected`. -/
def increment_sensitive_items_detected (s : UserStats) (count : Int) :
    Except String UserStats :=
  if count < 0 then .error "Count must be positive"
  else .ok { s with total_sensitive_items_detected :=
      s.total_sensitive_items_detected + count }

/-- `increment_non_detected_items(user, count)`: raises
`ValueError("Count must be positive")` when `count < 0`, else adds
`count` to `total_non_detected_items`. -/
def increment_non_detected_items (s : UserStats) (count : Int) :
    Except String UserStats :=
  if count < 0 then .error "Count must be positive"
  else .ok { s with total_non_detected_items :=
      s.total_non_detected_items + count }

/-- `update_stats_after_analysis(user, sensitive_count,
non_sensitive_count)`: raises `ValueError("Counts must be non-negative")`
when either count is negative, else adds both in one transaction. -/
def update_stats_after_analysis (s : UserStats)
    (sensitive_count non_sensitive_count : Int) : Except String UserStats :=
  if sensitive_count < 0 ∨ non_sensitive_count < 0 then
    .error "Counts must be non-negative"
  else .ok { s with
    total_sensitive_items_detected :=
      s.total_sensitive_items_detected + sensitive_count
    total_non_detected_items :=
      s.total_non_detected_items + non_sensitive_count }

/-- `reset_user_stats`: sets all five counters to zero. -/
def reset_user_stats (_ : UserStats) : UserStats :=
  ⟨0, 0, 0, 0, 0⟩

end UserStatsService

/-! ### `DocumentViewSet.perform_update` (`documents/views.py`) -/

/-- `perform_update`: reads the current `processed` flag
(`self.get_object().processed`), saves the document with the new data,
and if the flag transitioned false→true calls
`UserStatsService.increment_documents_processed` for the requesting user;
a true→false transition (and the no-change case) only logs. `newProcessed`
is the `processed` value carried by the update payload. A missing document
is a framework-level 404 before this hook runs, modelled as the identity. -/
def perform_update (st : SysState) (uid : Nat) (docId : Int)
    (newProcessed : Bool) : SysState :=
  match st.documents.find? (fun d => d.id = docId) with
  | none => st
  | some doc =>
    let old_processed := doc.processed
    let newDocs := st.documents.map (fun d =>
      if d.id = docId then { d with processed := newProcessed } else d)
    let st1 := { st with documents := newDocs }
    if old_processed = false ∧ newProcessed = true then
      setStats st1 uid UserStatsService.increment_documents_processed
    else st1

/-! ### Concrete fixtures used by closed theorems -/

/-- All five counters at zero. -/
def stats0 : UserStats := ⟨0, 0, 0, 0, 0⟩

/-- A document owned by user 1, not yet processed. -/
def doc1 : Document := ⟨1, 1, "report", "pdf", false⟩

/-- A document owned by user 2, not yet processed. -/
def doc2 : Document := ⟨2, 2, "payslip", "pdf", false⟩

/-- Initial state: two documents, no scans or items, all counters zero,
next scan id 10, clock at 5. -/
def st0 : SysState := ⟨[doc1, doc2], [], [], fun _ => stats0, 10, 5⟩

/-- ML payload for document 1 reporting `sensitive_items_count = 3` but
supplying no `sensitive_items` array. -/
def rawCount3NoItems : RawRequest :=
  ⟨some 1, some ["email"], some 3, some (2 : Rat), some "ml_model", none⟩

/-- ML payload naming document 2 — owned by user 2, not by the requesting
user 1. -/
def rawOtherUsersDoc : RawRequest :=
  ⟨some 2, some ["ssn"], some 1, some (1 : Rat), some "ml_model", none⟩

/-- ML payload for document 1 with a negative `sensitive_items_count`. -/
def rawNegativeCount : RawRequest :=
  ⟨some 1, some ["email"], some (-1), some (2 : Rat), some "ml_model", none⟩

/-- A sensitive item whose `type` key is absent. -/
def itemNoType : RawItem := ⟨none, some (1 : Rat), none, some 2⟩

/-- ML payload for document 1 whose single item lacks `type`. -/
def rawItemNoType : RawRequest :=
  ⟨some 1, some ["email"], some 1, some (2 : Rat), some "ml_model",
    some [itemNoType]⟩

/-- A fully-populated sensitive item. -/
def itemFull : RawItem := ⟨some "email", some (1 : Rat), some "p1", some 2⟩

/-- A sensitive item that omits the optional `location` and the defaulted
`count`. -/
def itemNoCount : RawItem := ⟨some "ssn", some (1 : Rat), none, none⟩

/-- ML payload for document 1 carrying two items. -/
def rawTwoItems : RawRequest :=
  ⟨some 1, some ["email", "ssn"], some 2, some (2 : Rat), some "ml_model",
    some [itemFull, itemNoCount]⟩

/-- Protocol-A request (no `source` key) for document 1. -/
def rawProtocolA : RawRequest :=
  ⟨some 1, none, none, none, none, none⟩

/-- Request for document 1 carrying a wrong source marker: `source` is
present but is not the `"ml_model"` sentinel. -/
def rawWrongSource : RawRequest :=
  ⟨some 1, none, none, none, some "manual", none⟩

/-- Detection-service results for document 1: risk `high`, one item. -/
def resultsHigh : RawDetectionResult :=
  ⟨some 1, some "high", some (3 : Rat), some [itemFull]⟩

/-- Detection-service results for document 1: risk `low`, no items. -/
def resultsEmpty : RawDetectionResult :=
  ⟨some 1, some "low", some (3 : Rat), some []⟩

/-! ## Inversion and frame lemmas -/

theorem validateML_inv {raw : RawRequest} {v : ValidML}
    (h : validateML raw = some v) :
    raw.document_id = some v.document_id ∧
    raw.detection_types = some v.detection_types ∧
    raw.sensitive_items_count = some v.sensitive_items_count ∧
    raw.processing_time = some v.processing_time ∧
    raw.source = some "ml_model" ∧ v.source = "ml_model" := by
  unfold validateML at h
  split at h
  · rename_i did dts c pt src hdid hdts hc hpt hsrc
    split at h
    · rename_i hml
      subst hml
      split at h
      · rename_i hits
        cases h
        exact ⟨hdid, hdts, hc, hpt, hsrc, rfl⟩
      · rename_i ris hits
        rcases hmm : validateItems ris with _ | vis <;> rw [hmm] at h
        · cases h
        · have hv := Option.some.inj h
          subst hv
          exact ⟨hdid, hdts, hc, hpt, hsrc, rfl⟩
    · cases h
  · cases h

theorem validateML_items_inv {raw : RawRequest} {v : ValidML}
    {ris : List RawItem}
    (h : validateML raw = some v) (hits : raw.sensitive_items = some ris) :
    validateItems ris = some v.sensitive_items := by
  unfold validateML at h
  split at h
  · rename_i did dts c pt src hdid hdts hc hpt hsrc
    split at h
    · rename_i hml
      subst hml
      split at h
      · rename_i habsent
        rw [habsent] at hits
        cases hits
      · rename_i ris' hsome
        rw [hsome] at hits
        cases hits
        rcases hmm : validateItems ris with _ | vis <;> rw [hmm] at h
        · cases h
        · have hv := Option.some.inj h
          subst hv
          rfl
    · cases h
  · cases h

theorem create_ml_inv {v : ValidML} {st : SysState} {scan : Scan}
    {st1 : SysState} (h : create_ml_analysis_result v st = some (scan, st1)) :
    ∃ doc, st.documents.find? (fun d => d.id = v.document_id) = some doc ∧
      scan = ⟨st.nextScanId, doc.id,
        (if v.sensitive_items_count = 0 then "low"
         else if v.sensitive_items_count ≤ 2 then "medium" else "high"),
        v.processing_time, st.now⟩ ∧
      st1 = { st with
        scans := st.scans ++ [scan]
        items := st.items ++ v.sensitive_items.map (fun it =>
          ⟨st.nextScanId, it.type, it.confidence, it.location, it.count,
            false⟩)
        documents := markProcessed st.documents doc.id
        nextScanId := st.nextScanId + 1 } := by
  unfold create_ml_analysis_result at h
  split at h
  · cases h
  · rename_i doc hd
    simp only [Option.some.injEq, Prod.mk.injEq] at h
    exact ⟨doc, hd, h.1.symm, by rw [← h.2, ← h.1]⟩

theorem detection_create_inv {v : ValidDetectionResult} {st : SysState}
    {scan : Scan} {st1 : SysState}
    (h : detection_result_create v st = some (scan, st1)) :
    ∃ doc, st.documents.find? (fun d => d.id = v.document_id) = some doc ∧
      scan = ⟨st.nextScanId, doc.id, v.risk_level, v.processing_time,
        st.now⟩ ∧
      st1 = { st with
        scans := st.scans ++ [scan]
        items := st.items ++ v.sensitive_items.map (fun it =>
          ⟨st.nextScanId, it.type, it.confidence, it.location, it.count,
            false⟩)
        documents := markProcessed st.documents doc.id
        nextScanId := st.nextScanId + 1 } := by
  unfold detection_result_create at h
  split at h
  · cases h
  · rename_i doc hd
    simp only [Option.some.injEq, Prod.mk.injEq] at h
    exact ⟨doc, hd, h.1.symm, by rw [← h.2, ← h.1]⟩

theorem ml_created_inv {uid : Nat} {raw : RawRequest} {st : SysState}
    {resp : AnalyzeResponse} {st' : SysState}
    (h : handle_ml_payload uid raw st = (.created resp, st')) :
    ∃ v scan st1, validateML raw = some v ∧
      create_ml_analysis_result v st = some (scan, st1) ∧
      resp = ⟨some scan.documentId, some scan.id, some scan.scan_date, none,
        none, some v.sensitive_items_count, none, some "ml_model",
        some "recorded"⟩ ∧
      st' = (if 0 < v.sensitive_items_count then
              setStats st1 uid
                (fun s => addSensitiveDetected s v.sensitive_items_count)
            else setStats st1 uid (fun s => addNonDetected s 1)) := by
  unfold handle_ml_payload at h
  split at h
  · simp at h
  · rename_i v hv
    split at h
    · simp at h
    · rename_i scan st1 hc
      simp only [Prod.mk.injEq, HttpResult.created.injEq] at h
      exact ⟨v, scan, st1, hv, hc, h.1.symm, h.2.symm⟩

theorem backend_created_inv {uid : Nat} {raw : RawRequest}
    {outcome : DetectionOutcome} {st : SysState} {resp : AnalyzeResponse}
    {st' : SysState}
    (h : handle_backend_analysis uid raw outcome st = (.created resp, st')) :
    ∃ did results v scan st1,
      raw.document_id = some did ∧
      validate_document_id st.documents uid did = true ∧
      outcome = .ok results ∧
      validateDetectionResult results = some v ∧
      detection_result_create v st = some (scan, st1) ∧
      resp = ⟨some scan.documentId, some scan.id, some scan.scan_date,
        some scan.risk_level, some scan.processing_time,
        some ((st1.items.filter (fun i => i.scanId = scan.id)).length : Int),
        some (st1.items.filter (fun i => i.scanId = scan.id)), none, none⟩ ∧
      st' = (if 0 < ((st1.items.filter
                (fun i => i.scanId = scan.id)).length : Int) then
              setStats st1 uid (fun s => addSensitiveDetected s
                ((st1.items.filter
                  (fun i => i.scanId = scan.id)).length : Int))
            else setStats st1 uid (fun s => addNonDetected s 1)) := by
  unfold handle_backend_analysis at h
  split at h
  · simp at h
  · rename_i did hdid
    split at h
    · rename_i hval
      split at h
      · simp at h
      · rename_i results
        split at h
        · simp at h
        · rename_i v hv
          split at h
          · simp at h
          · rename_i scan st1 hc
            simp only [Prod.mk.injEq, HttpResult.created.injEq] at h
            exact ⟨did, results, v, scan, st1, hdid, hval, rfl, hv, hc,
              h.1.symm, h.2.symm⟩
    · simp at h


theorem setStats_self (st : SysState) (uid : Nat) (f : UserStats → UserStats) :
    (setStats st uid f).stats uid = f (st.stats uid) := by
  simp [setStats]

theorem setStats_other (st : SysState) (uid : Nat) (f : UserStats → UserStats)
    {u : Nat} (h : u ≠ uid) : (setStats st uid f).stats u = st.stats u := by
  simp [setStats, if_neg h]

theorem ml_counter_change {uid : Nat} {raw : RawRequest} {st : SysState}
    {resp : AnalyzeResponse} {st' : SysState}
    (h : handle_ml_payload uid raw st = (.created resp, st')) :
    ∃ c, raw.sensitive_items_count = some c ∧
      (∀ u, u ≠ uid → st'.stats u = st.stats u) ∧
      (st'.stats uid).total_documents_saved
        = (st.stats uid).total_documents_saved ∧
      (st'.stats uid).total_documents_processed
        = (st.stats uid).total_documents_processed ∧
      (st'.stats uid).total_documents_shared
        = (st.stats uid).total_documents_shared ∧
      ((0 < c ∧
        (st'.stats uid).total_sensitive_items_detected
          = (st.stats uid).total_sensitive_items_detected + c ∧
        (st'.stats uid).total_non_detected_items
          = (st.stats uid).total_non_detected_items) ∨
       (c ≤ 0 ∧
        (st'.stats uid).total_non_detected_items
          = (st.stats uid).total_non_detected_items + 1 ∧
        (st'.stats uid).total_sensitive_items_detected
          = (st.stats uid).total_sensitive_items_detected)) := by
  obtain ⟨v, scan, st1, hv, hc, hresp, hst'⟩ := ml_created_inv h
  obtain ⟨doc, hd, hscan, hst1⟩ := create_ml_inv hc
  have hstats : st1.stats = st.stats := by rw [hst1]
  subst hst'
  by_cases h0 : 0 < v.sensitive_items_count
  · rw [if_pos h0]
    refine ⟨v.sensitive_items_count, (validateML_inv hv).2.2.1,
      fun u hu => by rw [setStats_other _ _ _ hu, hstats], ?_, ?_, ?_,
      Or.inl ⟨h0, ?_, ?_⟩⟩ <;>
      simp [setStats_self, addSensitiveDetected, hstats]
  · rw [if_neg h0]
    refine ⟨v.sensitive_items_count, (validateML_inv hv).2.2.1,
      fun u hu => by rw [setStats_other _ _ _ hu, hstats], ?_, ?_, ?_,
      Or.inr ⟨le_of_not_lt h0, ?_, ?_⟩⟩ <;>
      simp [setStats_self, addNonDetected, hstats]

theorem backend_counter_change {uid : Nat} {raw : RawRequest}
    {outcome : DetectionOutcome} {st : SysState} {resp : AnalyzeResponse}
    {st' : SysState}
    (h : handle_backend_analysis uid raw outcome st = (.created resp, st')) :
    ∃ sid k, resp.scan_id = some sid ∧
      resp.sensitive_items_count = some k ∧
      k = ((st'.items.filter (fun i => i.scanId = sid)).length : Int) ∧
      (∀ u, u ≠ uid → st'.stats u = st.stats u) ∧
      (st'.stats uid).total_documents_saved
        = (st.stats uid).total_documents_saved ∧
      (st'.stats uid).total_documents_processed
        = (st.stats uid).total_documents_processed ∧
      (st'.stats uid).total_documents_shared
        = (st.stats uid).total_documents_shared ∧
      ((0 < k ∧
        (st'.stats uid).total_sensitive_items_detected
          = (st.stats uid).total_sensitive_items_detected + k ∧
        (st'.stats uid).total_non_detected_items
          = (st.stats uid).total_non_detected_items) ∨
       (k ≤ 0 ∧
        (st'.stats uid).total_non_detected_items
          = (st.stats uid).total_non_detected_items + 1 ∧
        (st'.stats uid).total_sensitive_items_detected
          = (st.stats uid).total_sensitive_items_detected)) := by
  obtain ⟨did, results, v, scan, st1, hdid, hval, hout, hv, hc, hresp, hst'⟩ :=
    backend_created_inv h
  obtain ⟨doc, hd, hscan, hst1⟩ := detection_create_inv hc
  have hstats : st1.stats = st.stats := by rw [hst1]
  subst hst'
  subst hresp
  by_cases h0 : 0 < ((st1.items.filter
      (fun i => i.scanId = scan.id)).length : Int)
  · rw [if_pos h0]
    refine ⟨scan.id, _, rfl, rfl, rfl,
      fun u hu => by rw [setStats_other _ _ _ hu, hstats], ?_, ?_, ?_,
      Or.inl ⟨h0, ?_, ?_⟩⟩ <;>
      simp [setStats_self, addSensitiveDetected, hstats]
  · rw [if_neg h0]
    refine ⟨scan.id, _, rfl, rfl, rfl,
      fun u hu => by rw [setStats_other _ _ _ hu, hstats], ?_, ?_, ?_,
      Or.inr ⟨le_of_not_lt h0, ?_, ?_⟩⟩ <;>
      simp [setStats_self, addNonDetected, hstats]

theorem ml_badRequest_state {uid : Nat} {raw : RawRequest} {st : SysState}
    {st' : SysState} (h : handle_ml_payload uid raw st = (.badRequest, st')) :
    st' = st := by
  unfold handle_ml_payload at h
  split at h
  · simp only [Prod.mk.injEq] at h
    exact h.2.symm
  · split at h
    · simp only [Prod.mk.injEq] at h
      exact h.2.symm
    · simp at h

theorem backend_badRequest_state {uid : Nat} {raw : RawRequest}
    {outcome : DetectionOutcome} {st : SysState} {st' : SysState}
    (h : handle_backend_analysis uid raw outcome st = (.badRequest, st')) :
    st' = st := by
  unfold handle_backend_analysis at h
  split at h
  · simp only [Prod.mk.injEq] at h
    exact h.2.symm
  · split at h
    · split at h
      · simp only [Prod.mk.injEq] at h
        exact h.2.symm
      · split at h
        · simp only [Prod.mk.injEq] at h
          exact h.2.symm
        · split at h
          · simp at h
          · simp at h
    · simp only [Prod.mk.injEq] at h
      exact h.2.symm

theorem validateItems_inv {ris : List RawItem} {vis : List ValidItem}
    (h : validateItems ris = some vis) :
    (∀ r ∈ ris, r.type.isSome ∧ r.confidence.isSome) ∧
    vis = ris.map (fun r =>
      ⟨r.type.getD "other", r.confidence.getD 0, r.location,
        r.count.getD 1⟩) := by
  induction ris generalizing vis with
  | nil =>
    cases h
    exact ⟨fun r hr => absurd hr (List.not_mem_nil r), rfl⟩
  | cons r rs ih =>
    unfold validateItems at h
    rcases hr : validateItem r with _ | v <;> rw [hr] at h
    · cases h
    · rcases hrs : validateItems rs with _ | vs <;> rw [hrs] at h
      · cases h
      · cases h
        obtain ⟨hall, hmap⟩ := ih hrs
        unfold validateItem at hr
        rcases hty : r.type with _ | t <;> rw [hty] at hr
        · cases hr
        · rcases hcf : r.confidence with _ | cf <;> rw [hcf] at hr
          · cases hr
          · cases hr
            refine ⟨?_, ?_⟩
            · intro x hx
              rcases List.mem_cons.mp hx with hx1 | hx1
              · subst hx1
                exact ⟨by rw [hty]; rfl, by rw [hcf]; rfl⟩
              · exact hall x hx1
            · simp only [List.map_cons, hty, hcf, ← hmap]
              rfl

/-! ## Claim theorems -/

/-- C1 (counterexample): the concrete Protocol-B request
`rawCount3NoItems` (`sensitive_items_count = 3`, no `sensitive_items`
array) succeeds with 201, persists zero sensitive items for the new scan
(id 10), and yet increments the requesting user's sensitive-items-detected
counter by 3 while leaving the non-detected counter untouched — so the
number of items actually persisted does not determine the counter update,
contradicting the claim. -/
theorem C1_persisted_count_counterexample :
    (analyze_create 1 rawCount3NoItems .err st0).1 =
      HttpResult.created ⟨some 1, some 10, some 5, none, none, some 3, none,
        some "ml_model", some "recorded"⟩ ∧
    ((analyze_create 1 rawCount3NoItems .err st0).2.items.filter
        (fun i => i.scanId = 10)).length = 0 ∧
    ((analyze_create 1 rawCount3NoItems .err st0).2.stats
        1).total_non_detected_items
      = (st0.stats 1).total_non_detected_items ∧
    ((analyze_create 1 rawCount3NoItems .err st0).2.stats
        1).total_sensitive_items_detected
      = (st0.stats 1).total_sensitive_items_detected + 3 := by
  decide

/-- C1 (amended): for every successful ingestion, no counter of any other
user changes and the requesting user's documents saved/processed/shared
counters are unchanged; under Protocol B the *supplied*
`sensitive_items_count` determines the update (positive → detected counter
increases by it, otherwise non-detected increases by 1), while under
Protocol A the number of items actually persisted for the new scan
determines it in the same way. -/
theorem C1_counter_update_amended {uid : Nat} {raw : RawRequest}
    {outcome : DetectionOutcome} {st : SysState} {resp : AnalyzeResponse}
    {st' : SysState}
    (h : analyze_create uid raw outcome st = (.created resp, st')) :
    (∀ u, u ≠ uid → st'.stats u = st.stats u) ∧
    (st'.stats uid).total_documents_saved
      = (st.stats uid).total_documents_saved ∧
    (st'.stats uid).total_documents_processed
      = (st.stats uid).total_documents_processed ∧
    (st'.stats uid).total_documents_shared
      = (st.stats uid).total_documents_shared ∧
    (raw.source = some "ml_model" →
      ∃ c, raw.sensitive_items_count = some c ∧
        ((0 < c ∧
          (st'.stats uid).total_sensitive_items_detected
            = (st.stats uid).total_sensitive_items_detected + c ∧
          (st'.stats uid).total_non_detected_items
            = (st.stats uid).total_non_detected_items) ∨
         (c ≤ 0 ∧
          (st'.stats uid).total_non_detected_items
            = (st.stats uid).total_non_detected_items + 1 ∧
          (st'.stats uid).total_sensitive_items_detected
            = (st.stats uid).total_sensitive_items_detected))) ∧
    (raw.source ≠ some "ml_model" →
      ∃ sid k, resp.scan_id = some sid ∧
        k = ((st'.items.filter (fun i => i.scanId = sid)).length : Int) ∧
        ((0 < k ∧
          (st'.stats uid).total_sensitive_items_detected
            = (st.stats uid).total_sensitive_items_detected + k ∧
          (st'.stats uid).total_non_detected_items
            = (st.stats uid).total_non_detected_items) ∨
         (k ≤ 0 ∧
          (st'.stats uid).total_non_detected_items
            = (st.stats uid).total_non_detected_items + 1 ∧
          (st'.stats uid).total_sensitive_items_detected
            = (st.stats uid).total_sensitive_items_detected))) := by
  unfold analyze_create at h
  by_cases hs : raw.source = some "ml_model"
  · rw [if_pos hs] at h
    obtain ⟨c, hcs, hframe, h1, h2, h3, hcase⟩ := ml_counter_change h
    exact ⟨hframe, h1, h2, h3, fun _ => ⟨c, hcs, hcase⟩,
      fun hns => absurd hs hns⟩
  · rw [if_neg hs] at h
    obtain ⟨sid, k, hsid, _, hk, hframe, h1, h2, h3, hcase⟩ :=
      backend_counter_change h
    exact ⟨hframe, h1, h2, h3, fun hml => absurd hml hs,
      fun _ => ⟨sid, k, hsid, hk, hcase⟩⟩

/-- C1 (witness): the amended theorem applied to a concrete successful
Protocol-B ingestion with two supplied items. -/
theorem C1_counter_update_amended_witness :
    ((analyze_create 1 rawTwoItems DetectionOutcome.err st0).2.stats
        1).total_documents_saved
      = (st0.stats 1).total_documents_saved :=
  (C1_counter_update_amended
    (Eq.refl (analyze_create 1 rawTwoItems DetectionOutcome.err st0))).2.1

/-- C2 (counterexample): two of the claim's rejection causes fail on the
code. A Protocol-B request naming a document the requester does not own
(`rawOtherUsersDoc`: document 2 owned by user 2, requester user 1) is not
rejected — it returns 201, persists a scan, marks the other user's
document processed and changes a counter. And a request with a wrong
source marker (`rawWrongSource`: `source = "manual"`) is not rejected for
its marker — the view routes it to the Protocol-A branch, where it can
succeed with 201. -/
theorem C2_ownership_counterexample :
    (analyze_create 1 rawOtherUsersDoc .err st0).1 =
      HttpResult.created ⟨some 2, some 10, some 5, none, none, some 1, none,
        some "ml_model", some "recorded"⟩ ∧
    (analyze_create 1 rawOtherUsersDoc .err st0).2.scans =
      [⟨10, 2, "medium", (1 : Rat), 5⟩] ∧
    (analyze_create 1 rawOtherUsersDoc .err st0).2.documents =
      [doc1, { doc2 with processed := true }] ∧
    ((analyze_create 1 rawOtherUsersDoc .err st0).2.stats
        1).total_sensitive_items_detected = 1 ∧
    (analyze_create 1 rawWrongSource (.ok resultsEmpty) st0).1 =
      HttpResult.created ⟨some 1, some 10, some 5, some "low", some (3 : Rat),
        some 0, some [], none, none⟩ := by
  decide

/-- C2 (amended): every rejection cause of the claim that survives in the
code yields a 400 with the state unchanged (no scan row, no item row, no
processed-flag write, no counter change): under Protocol A a document not
owned by the requester or a missing document (conjunct 1) and a missing
`document_id` field (conjunct 2); under Protocol B a serializer validation
failure (conjunct 3) — which conjunct 5 shows covers every missing
required field and every malformed item (one missing `type` or
`confidence`) — and a missing document, rejected at creation time before
any write (conjunct 4). The two causes the counterexample removes:
Protocol B performs no ownership check, and a wrong source marker is
never itself rejected — the ML serializer would reject it (conjunct 6),
but the view dispatches any request whose `source` is not `"ml_model"` to
the Protocol-A branch, ignoring the marker (conjunct 6). -/
theorem C2_validation_rejected_amended (uid : Nat) (raw : RawRequest)
    (outcome : DetectionOutcome) (st : SysState) :
    (raw.source ≠ some "ml_model" →
      ∀ did, raw.document_id = some did →
        validate_document_id st.documents uid did = false →
        analyze_create uid raw outcome st = (.badRequest, st)) ∧
    (raw.source ≠ some "ml_model" → raw.document_id = none →
      analyze_create uid raw outcome st = (.badRequest, st)) ∧
    (raw.source = some "ml_model" → validateML raw = none →
      analyze_create uid raw outcome st = (.badRequest, st)) ∧
    (raw.source = some "ml_model" →
      ∀ v, validateML raw = some v →
        st.documents.find? (fun d => d.id = v.document_id) = none →
        analyze_create uid raw outcome st = (.badRequest, st)) ∧
    ((raw.document_id = none ∨ raw.detection_types = none ∨
      raw.sensitive_items_count = none ∨ raw.processing_time = none ∨
      (∃ ris, raw.sensitive_items = some ris ∧
        ∃ r ∈ ris, (r.type = none ∨ r.confidence = none))) →
      validateML raw = none) ∧
    (∀ src, raw.source = some src → src ≠ "ml_model" →
      validateML raw = none ∧
      analyze_create uid raw outcome st
        = handle_backend_analysis uid raw outcome st) := by
  refine ⟨?_, ?_, ?_, ?_, ?_, ?_⟩
  · intro hs did hdid hval
    unfold analyze_create
    rw [if_neg hs]
    unfold handle_backend_analysis
    rw [hdid]
    simp [hval]
  · intro hs hdid
    unfold analyze_create
    rw [if_neg hs]
    unfold handle_backend_analysis
    rw [hdid]
  · intro hs hvn
    unfold analyze_create
    rw [if_pos hs]
    unfold handle_ml_payload
    rw [hvn]
  · intro hs v hv hd
    unfold analyze_create
    rw [if_pos hs]
    simp only [handle_ml_payload, hv, create_ml_analysis_result, hd]
  · intro hcause
    rcases hvv : validateML raw with _ | v
    · rfl
    · exfalso
      obtain ⟨h1, h2, h3, h4, _, _⟩ := validateML_inv hvv
      rcases hcause with hc | hc | hc | hc | ⟨ris, hris, r, hr, hrc⟩
      · rw [hc] at h1
        cases h1
      · rw [hc] at h2
        cases h2
      · rw [hc] at h3
        cases h3
      · rw [hc] at h4
        cases h4
      · have hvi := validateML_items_inv hvv hris
        obtain ⟨hall, _⟩ := validateItems_inv hvi
        obtain ⟨hty, hcf⟩ := hall r hr
        rcases hrc with hrc | hrc
        · rw [hrc] at hty
          exact absurd hty (by decide)
        · rw [hrc] at hcf
          exact absurd hcf (by decide)
  · intro src hsrc hne
    have hns : raw.source ≠ some "ml_model" := by
      intro hml
      rw [hsrc] at hml
      exact hne (Option.some.inj hml)
    constructor
    · rcases hvv : validateML raw with _ | v
      · rfl
      · exfalso
        have h5 := (validateML_inv hvv).2.2.2.2.1
        exact hns h5
    · unfold analyze_create
      rw [if_neg hns]

/-- C2 (witness): the amended theorem applied to a concrete Protocol-A
request by user 2 for document 1, which user 2 does not own. -/
theorem C2_validation_rejected_amended_witness :
    analyze_create 2 rawProtocolA DetectionOutcome.err st0 =
      (HttpResult.badRequest, st0) :=
  (C2_validation_rejected_amended 2 rawProtocolA DetectionOutcome.err
    st0).1 (by decide) 1 rfl (by decide)

theorem markProcessed_mem {docs : List Document} {doc : Document} {did : Int}
    (hd : docs.find? (fun d => d.id = did) = some doc) :
    { doc with processed := true } ∈ markProcessed docs did ∧ doc.id = did := by
  have hmem : doc ∈ docs := List.mem_of_find?_eq_some hd
  have hpd : doc.id = did := by
    have hp := List.find?_some hd
    exact of_decide_eq_true hp
  constructor
  · unfold markProcessed
    have hmap := List.mem_map_of_mem
      (fun d => if d.id = did then { d with processed := true } else d) hmem
    simpa [hpd] using hmap
  · exact hpd

theorem riskLevel_cases (c : Int) :
    ((if c = 0 then "low" else if c ≤ 2 then "medium" else "high") = "low"
      ↔ c = 0) ∧
    ((if c = 0 then "low" else if c ≤ 2 then "medium" else "high") = "medium"
      ↔ (c ≠ 0 ∧ c ≤ 2)) ∧
    ((if c = 0 then "low" else if c ≤ 2 then "medium" else "high") = "high"
      ↔ 3 ≤ c) := by
  by_cases h0 : c = 0
  · rw [if_pos h0]
    refine ⟨?_, ?_, ?_⟩ <;> constructor
    · intro _
      exact h0
    · intro _
      rfl
    · intro hstr
      exact absurd hstr (by decide)
    · intro hc2
      exact absurd h0 hc2.1
    · intro hstr
      exact absurd hstr (by decide)
    · intro h3
      exact absurd h3 (by omega)
  · rw [if_neg h0]
    by_cases h2 : c ≤ 2
    · rw [if_pos h2]
      refine ⟨?_, ?_, ?_⟩ <;> constructor
      · intro hstr
        exact absurd hstr (by decide)
      · intro hceq
        exact absurd hceq h0
      · intro _
        exact ⟨h0, h2⟩
      · intro _
        rfl
      · intro hstr
        exact absurd hstr (by decide)
      · intro h3
        exact absurd h3 (by omega)
    · rw [if_neg h2]
      refine ⟨?_, ?_, ?_⟩ <;> constructor
      · intro hstr
        exact absurd hstr (by decide)
      · intro hceq
        exact absurd hceq h0
      · intro hstr
        exact absurd hstr (by decide)
      · intro hcc
        exact absurd hcc.2 h2
      · intro _
        omega
      · intro _
        rfl

/-- C9: every successful ingestion, under either protocol, marks the
scan's parent document processed, while the documents saved, documents
processed and documents shared counters of every user are unchanged —
ingestion only ever touches the requesting user's sensitive-items-detected
or non-detected-items counter; the documents-processed counter moves only
through the document update endpoint. -/
theorem C9_processed_flag_and_counter_frame (uid : Nat) (raw : RawRequest)
    (outcome : DetectionOutcome) (st : SysState) {resp : AnalyzeResponse}
    {st' : SysState}
    (h : analyze_create uid raw outcome st = (.created resp, st')) :
    (∃ d, d ∈ st'.documents ∧ some d.id = resp.document_id ∧
      d.processed = true) ∧
    (∀ u, (st'.stats u).total_documents_saved
        = (st.stats u).total_documents_saved ∧
      (st'.stats u).total_documents_processed
        = (st.stats u).total_documents_processed ∧
      (st'.stats u).total_documents_shared
        = (st.stats u).total_documents_shared) := by
  unfold analyze_create at h
  by_cases hs : raw.source = some "ml_model"
  · rw [if_pos hs] at h
    obtain ⟨c, hcs, hframe, h1, h2, h3, _⟩ := ml_counter_change h
    obtain ⟨v, scan, st1, hv, hcr, hresp, hst'⟩ := ml_created_inv h
    obtain ⟨doc, hd, hscan, hst1⟩ := create_ml_inv hcr
    obtain ⟨hmem, hpd⟩ := markProcessed_mem hd
    have hdocs : st'.documents = markProcessed st.documents doc.id := by
      rw [hst']
      split <;> rw [hst1] <;> rfl
    refine ⟨⟨{ doc with processed := true }, ?_, ?_, rfl⟩, ?_⟩
    · have hmem2 := hmem
      rw [← hpd] at hmem2
      rw [hdocs]
      exact hmem2
    · rw [hresp, hscan]
    · intro u
      by_cases hu : u = uid
      · subst hu
        exact ⟨h1, h2, h3⟩
      · rw [hframe u hu]
        exact ⟨rfl, rfl, rfl⟩
  · rw [if_neg hs] at h
    obtain ⟨sid, k, hsid, hkresp, hk, hframe, h1, h2, h3, _⟩ :=
      backend_counter_change h
    obtain ⟨did, results, v, scan, st1, hdid, hval, hout, hv, hcr, hresp,
      hst'⟩ := backend_created_inv h
    obtain ⟨doc, hd, hscan, hst1⟩ := detection_create_inv hcr
    obtain ⟨hmem, hpd⟩ := markProcessed_mem hd
    have hdocs : st'.documents = markProcessed st.documents doc.id := by
      rw [hst']
      split <;> rw [hst1] <;> rfl
    refine ⟨⟨{ doc with processed := true }, ?_, ?_, rfl⟩, ?_⟩
    · have hmem2 := hmem
      rw [← hpd] at hmem2
      rw [hdocs]
      exact hmem2
    · rw [hresp, hscan]
    · intro u
      by_cases hu : u = uid
      · subst hu
        exact ⟨h1, h2, h3⟩
      · rw [hframe u hu]
        exact ⟨rfl, rfl, rfl⟩

/-- C9 (witness): the theorem applied to a concrete successful Protocol-B
ingestion; user 2's documents-processed counter is untouched. -/
theorem C9_processed_flag_and_counter_frame_witness :
    ((analyze_create 1 rawCount3NoItems DetectionOutcome.err st0).2.stats
        2).total_documents_processed
      = (st0.stats 2).total_documents_processed :=
  ((C9_processed_flag_and_counter_frame 1 rawCount3NoItems
    DetectionOutcome.err st0 (Eq.refl _)).2 2).2.1

/-- C3 (counterexample): the Protocol-B request `rawNegativeCount`
(`sensitive_items_count = -1`) passes validation and succeeds with 201;
the persisted scan's risk level is "medium" although -1 is not between 1
and 2 — "medium iff 1 ≤ count ≤ 2" fails on the code. -/
theorem C3_risk_derivation_counterexample :
    (analyze_create 1 rawNegativeCount .err st0).1 =
      HttpResult.created ⟨some 1, some 10, some 5, none, none, some (-1),
        none, some "ml_model", some "recorded"⟩ ∧
    (analyze_create 1 rawNegativeCount .err st0).2.scans =
      [⟨10, 1, "medium", (2 : Rat), 5⟩] ∧
    ¬((1 : Int) ≤ -1 ∧ (-1 : Int) ≤ 2) := by
  decide

/-- C3 (amended): for every successful Protocol-B ingestion with supplied
count c, exactly one scan is appended, and its risk level satisfies:
"low" iff c = 0; "medium" iff c ≠ 0 and c ≤ 2 (negative counts are also
classified medium); "high" iff c ≥ 3. -/
theorem C3_risk_derivation_amended (uid : Nat) (raw : RawRequest)
    (outcome : DetectionOutcome) (st : SysState) (c : Int)
    {resp : AnalyzeResponse} {st' : SysState}
    (hml : raw.source = some "ml_model")
    (hc : raw.sensitive_items_count = some c)
    (h : analyze_create uid raw outcome st = (.created resp, st')) :
    st'.scans.length = st.scans.length + 1 ∧
    ∀ s, st'.scans.getLast? = some s →
      ((s.risk_level = "low" ↔ c = 0) ∧
       (s.risk_level = "medium" ↔ (c ≠ 0 ∧ c ≤ 2)) ∧
       (s.risk_level = "high" ↔ 3 ≤ c)) := by
  unfold analyze_create at h
  rw [if_pos hml] at h
  obtain ⟨v, scan, st1, hv, hcr, hresp, hst'⟩ := ml_created_inv h
  obtain ⟨doc, hd, hscan, hst1⟩ := create_ml_inv hcr
  have hcv : c = v.sensitive_items_count := by
    have h2 := (validateML_inv hv).2.2.1
    rw [hc] at h2
    exact Option.some.inj h2
  have hscans : st'.scans = st.scans ++ [scan] := by
    rw [hst']
    split <;> rw [hst1] <;> rfl
  constructor
  · rw [hscans]
    simp
  · intro s hs
    rw [hscans, List.getLast?_concat] at hs
    cases hs
    subst hscan
    subst hcv
    exact riskLevel_cases v.sensitive_items_count

/-- C3 (witness): the amended theorem applied to the concrete negative
count -1, where the persisted scan is classified "medium". -/
theorem C3_risk_derivation_amended_witness :
    (((⟨10, 1, "medium", (2 : Rat), 5⟩ : Scan).risk_level = "low"
        ↔ (-1 : Int) = 0) ∧
     ((⟨10, 1, "medium", (2 : Rat), 5⟩ : Scan).risk_level = "medium"
        ↔ ((-1 : Int) ≠ 0 ∧ (-1 : Int) ≤ 2)) ∧
     ((⟨10, 1, "medium", (2 : Rat), 5⟩ : Scan).risk_level = "high"
        ↔ 3 ≤ (-1 : Int))) :=
  (C3_risk_derivation_amended 1 rawNegativeCount DetectionOutcome.err st0
    (-1) rfl rfl (Eq.refl _)).2 ⟨10, 1, "medium", (2 : Rat), 5⟩ (by decide)


/-- C10: every Protocol-B request that validates successfully with a
negative `sensitive_items_count`, naming an existing document, is
ingested: the response is 201, the created scan's risk level is "medium",
the user's non-detected-items counter increases by 1 and the
sensitive-items-detected counter is unchanged. -/
theorem C10_negative_count_ingestion (uid : Nat) (raw : RawRequest)
    (outcome : DetectionOutcome) (st : SysState) (v : ValidML)
    (doc : Document)
    (hv : validateML raw = some v)
    (hneg : v.sensitive_items_count < 0)
    (hd : st.documents.find? (fun d => d.id = v.document_id) = some doc) :
    analyze_create uid raw outcome st =
      (.created ⟨some doc.id, some st.nextScanId, some st.now, none, none,
        some v.sensitive_items_count, none, some "ml_model",
        some "recorded"⟩,
       setStats { st with
          scans := st.scans ++ [⟨st.nextScanId, doc.id, "medium",
            v.processing_time, st.now⟩]
          items := st.items ++ v.sensitive_items.map (fun it =>
            ⟨st.nextScanId, it.type, it.confidence, it.location, it.count,
              false⟩)
          documents := markProcessed st.documents doc.id
          nextScanId := st.nextScanId + 1 } uid
         (fun s => addNonDetected s 1)) := by
  have hsrc := (validateML_inv hv).2.2.2.2.1
  have h0 : ¬(v.sensitive_items_count = 0) := by omega
  have h2 : v.sensitive_items_count ≤ 2 := by omega
  have h3 : ¬(v.sensitive_items_count > 0) := by omega
  unfold analyze_create
  rw [if_pos hsrc]
  simp only [handle_ml_payload, hv, create_ml_analysis_result, hd,
    if_neg h0, if_pos h2, if_neg h3]

/-- C10 (witness): the theorem applied to the concrete request with
count -1 on document 1. -/
theorem C10_negative_count_ingestion_witness :
    analyze_create 1 rawNegativeCount DetectionOutcome.err st0 =
      (.created ⟨some 1, some 10, some 5, none, none, some (-1), none,
        some "ml_model", some "recorded"⟩,
       setStats { st0 with
          scans := st0.scans ++ [⟨10, 1, "medium", (2 : Rat), 5⟩]
          items := st0.items
          documents := markProcessed st0.documents 1
          nextScanId := 11 } 1 (fun s => addNonDetected s 1)) :=
  C10_negative_count_ingestion 1 rawNegativeCount DetectionOutcome.err st0
    ⟨1, ["email"], -1, (2 : Rat), "ml_model", []⟩ doc1 rfl (by decide) rfl

/-- C4 (counterexample): the Protocol-B request `rawItemNoType`, whose
single supplied item has no `type` key, is rejected with a 400 and nothing
is persisted — a missing `type` does not become "other"; it makes the
whole request invalid (the item serializer requires `type` and
`confidence`), so the claimed per-item defaulting never happens for those
fields. -/
theorem C4_missing_type_counterexample :
    analyze_create 1 rawItemNoType .err st0 = (.badRequest, st0) ∧
    validateItem itemNoType = none :=
  ⟨rfl, rfl⟩

/-- C4 (amended): in every valid Protocol-B request that supplies a
sensitive_items sequence, each supplied item necessarily carries `type`
and `confidence` (validation rejects the request otherwise), and the rows
persisted for the new scan are exactly the supplied items with `count`
defaulted to 1 when absent, `location` passed through (absent stays
null), and the `redacted` flag stored false regardless of input. -/
theorem C4_item_defaults_amended (uid : Nat) (raw : RawRequest)
    (outcome : DetectionOutcome) (st : SysState) (ris : List RawItem)
    {resp : AnalyzeResponse} {st' : SysState}
    (hits : raw.sensitive_items = some ris)
    (hml : raw.source = some "ml_model")
    (h : analyze_create uid raw outcome st = (.created resp, st')) :
    (∀ r ∈ ris, r.type.isSome ∧ r.confidence.isSome) ∧
    st'.items = st.items ++ ris.map (fun r =>
      ⟨st.nextScanId, r.type.getD "other", r.confidence.getD 0, r.location,
        r.count.getD 1, false⟩) := by
  unfold analyze_create at h
  rw [if_pos hml] at h
  obtain ⟨v, scan, st1, hv, hcr, hresp, hst'⟩ := ml_created_inv h
  obtain ⟨doc, hd, hscan, hst1⟩ := create_ml_inv hcr
  have hvi := validateML_items_inv hv hits
  obtain ⟨hall, hmap⟩ := validateItems_inv hvi
  refine ⟨hall, ?_⟩
  have hitems : st'.items = st.items ++ v.sensitive_items.map (fun it =>
      (⟨st.nextScanId, it.type, it.confidence, it.location, it.count,
        false⟩ : SensitiveInformation)) := by
    rw [hst']
    split <;> rw [hst1] <;> rfl
  rw [hitems, hmap, List.map_map]
  rfl

/-- C4 (witness): the amended theorem applied to a request carrying one
fully-populated item and one item with no `count` and no `location`. -/
theorem C4_item_defaults_amended_witness :
    (analyze_create 1 rawTwoItems DetectionOutcome.err st0).2.items =
      st0.items ++ [itemFull, itemNoCount].map (fun r =>
        ⟨st0.nextScanId, r.type.getD "other", r.confidence.getD 0,
          r.location, r.count.getD 1, false⟩) :=
  (C4_item_defaults_amended 1 rawTwoItems DetectionOutcome.err st0
    [itemFull, itemNoCount] rfl rfl (Eq.refl _)).2

/-- C6 (counterexample): a successful Protocol-B ingestion's 201 body has
no `processing_time` key, and a successful Protocol-A ingestion's 201 body
has no `status` key — neither field is present on every success,
contradicting the claim that both are non-optional. -/
theorem C6_response_fields_counterexample :
    (analyze_create 1 rawCount3NoItems .err st0).1 =
      HttpResult.created ⟨some 1, some 10, some 5, none, none, some 3, none,
        some "ml_model", some "recorded"⟩ ∧
    (analyze_create 1 rawProtocolA (.ok resultsHigh) st0).1 =
      HttpResult.created ⟨some 1, some 10, some 5, some "high",
        some (3 : Rat), some 1,
        some [⟨10, "email", (1 : Rat), some "p1", 2, false⟩], none,
        none⟩ := by
  decide

/-- C6 (amended): every successful request returns 201 with `document_id`,
`scan_id`, `scan_date` and `sensitive_items_count` present; a Protocol-B
success additionally carries `source = "ml_model"` and
`status = "recorded"` but omits `risk_level`, `processing_time` and
`sensitive_items`; a Protocol-A success additionally carries `risk_level`,
`processing_time` and `sensitive_items` but omits `source` and `status`. -/
theorem C6_response_fields_amended (uid : Nat) (raw : RawRequest)
    (outcome : DetectionOutcome) (st : SysState) {resp : AnalyzeResponse}
    {st' : SysState}
    (h : analyze_create uid raw outcome st = (.created resp, st')) :
    resp.document_id.isSome = true ∧ resp.scan_id.isSome = true ∧
    resp.scan_date.isSome = true ∧
    resp.sensitive_items_count.isSome = true ∧
    (raw.source = some "ml_model" →
      resp.source = some "ml_model" ∧ resp.status = some "recorded" ∧
      resp.risk_level = none ∧ resp.processing_time = none ∧
      resp.sensitive_items = none) ∧
    (raw.source ≠ some "ml_model" →
      resp.risk_level.isSome = true ∧ resp.processing_time.isSome = true ∧
      resp.sensitive_items.isSome = true ∧ resp.source = none ∧
      resp.status = none) := by
  unfold analyze_create at h
  by_cases hs : raw.source = some "ml_model"
  · rw [if_pos hs] at h
    obtain ⟨v, scan, st1, hv, hcr, hresp, hst'⟩ := ml_created_inv h
    subst hresp
    exact ⟨rfl, rfl, rfl, rfl, fun _ => ⟨rfl, rfl, rfl, rfl, rfl⟩,
      fun hns => absurd hs hns⟩
  · rw [if_neg hs] at h
    obtain ⟨did, results, v, scan, st1, hdid, hval, hout, hv, hcr, hresp,
      hst'⟩ := backend_created_inv h
    subst hresp
    exact ⟨rfl, rfl, rfl, rfl, fun hml => absurd hml hs,
      fun _ => ⟨rfl, rfl, rfl, rfl, rfl⟩⟩

/-- C6 (witness): the amended theorem applied to a concrete successful
Protocol-B ingestion. -/
theorem C6_response_fields_amended_witness :
    ((⟨some 1, some 10, some 5, none, none, some 3, none, some "ml_model",
      some "recorded"⟩ : AnalyzeResponse)).document_id.isSome = true :=
  (C6_response_fields_amended 1 rawCount3NoItems DetectionOutcome.err st0
    (Eq.refl _)).1

/-- C5: a document update transitioning `processed` false→true increments
the requesting user's documents-processed counter by exactly 1, changing
no other counter of any user; a true→false transition changes no counter
at all (decrements never happen outside reset). -/
theorem C5_processed_transition_counter (uid : Nat) (docId : Int)
    (st : SysState) {doc : Document}
    (hd : st.documents.find? (fun d => d.id = docId) = some doc) :
    (doc.processed = false →
      ((perform_update st uid docId true).stats
          uid).total_documents_processed
        = (st.stats uid).total_documents_processed + 1 ∧
      ((perform_update st uid docId true).stats uid).total_documents_saved
        = (st.stats uid).total_documents_saved ∧
      ((perform_update st uid docId true).stats uid).total_documents_shared
        = (st.stats uid).total_documents_shared ∧
      ((perform_update st uid docId true).stats
          uid).total_sensitive_items_detected
        = (st.stats uid).total_sensitive_items_detected ∧
      ((perform_update st uid docId true).stats
          uid).total_non_detected_items
        = (st.stats uid).total_non_detected_items ∧
      (∀ u, u ≠ uid →
        (perform_update st uid docId true).stats u = st.stats u)) ∧
    (doc.processed = true →
      (perform_update st uid docId false).stats = st.stats) := by
  constructor
  · intro hp
    have heq : perform_update st uid docId true =
        setStats { st with documents := st.documents.map (fun d =>
            if d.id = docId then { d with processed := true } else d) }
          uid UserStatsService.increment_documents_processed := by
      simp only [perform_update, hd, hp]
      rw [if_pos (by simp)]
    rw [heq]
    refine ⟨?_, ?_, ?_, ?_, ?_, fun u hu => setStats_other _ _ _ hu⟩ <;>
      simp [setStats_self, UserStatsService.increment_documents_processed]
  · intro hp
    have heq : perform_update st uid docId false =
        { st with documents := st.documents.map (fun d =>
            if d.id = docId then { d with processed := false } else d) } := by
      simp only [perform_update, hd, hp]
      rw [if_neg (by simp)]
    rw [heq]

/-- C5 (witness): the theorem applied to document 1 of the concrete state,
which is unprocessed; updating it to processed bumps the counter by 1. -/
theorem C5_processed_transition_counter_witness :
    ((perform_update st0 1 1 true).stats 1).total_documents_processed
      = (st0.stats 1).total_documents_processed + 1 :=
  ((C5_processed_transition_counter 1 1 st0 rfl).1 rfl).1

/-- C7: each delta-taking Stats Updater operation
(`increment_sensitive_items_detected`, `increment_non_detected_items`,
`update_stats_after_analysis`) rejects a negative delta by raising
(modelled as returning an error), so no updated user record is produced
and every counter is left unchanged. -/
theorem C7_negative_delta_rejected (s : UserStats) (d n : Int)
    (hneg : d < 0) :
    UserStatsService.increment_sensitive_items_detected s d
      = .error "Count must be positive" ∧
    UserStatsService.increment_non_detected_items s d
      = .error "Count must be positive" ∧
    UserStatsService.update_stats_after_analysis s d n
      = .error "Counts must be non-negative" ∧
    UserStatsService.update_stats_after_analysis s n d
      = .error "Counts must be non-negative" := by
  unfold UserStatsService.increment_sensitive_items_detected
    UserStatsService.increment_non_detected_items
    UserStatsService.update_stats_after_analysis
  rw [if_pos hneg, if_pos hneg, if_pos (Or.inl hneg), if_pos (Or.inr hneg)]
  exact ⟨rfl, rfl, rfl, rfl⟩

/-- C7 (witness): the theorem applied to the zero counters and delta -1. -/
theorem C7_negative_delta_rejected_witness :
    UserStatsService.increment_sensitive_items_detected stats0 (-1)
      = .error "Count must be positive" :=
  (C7_negative_delta_rejected stats0 (-1) 0 (by decide)).1


end Backend
